import Mathlib

/-!
Verification of the go-hass-agent orchestration core: a shallow embedding of
the sensor Registry (`internal/sensors/registry.go`), the MQTT controller
assembly, the controller/worker supervision layer and the websocket URL
generators, together with theorems settling the specified properties.
-/

namespace GoHassAgent

/-! ## Registry (`internal/sensors/registry.go`)

The registry persists, per sensor id, a record of two booleans
(`Registered`, `Disabled`), serialized as JSON into a key-value store
(badger).  We model the store as an association list from keys to the raw
serialized strings, plus a `closed` flag (operations on a closed store fail
with a `dbClosed` error, mirroring badger's `ErrDBClosed`). -/

/-- The per-sensor record stored in the registry (`registryValues` in
`registry.go`): two booleans serialized with JSON field names
`Registered` and `Disabled`. -/
structure registryValues where
  Registered : Bool
  Disabled : Bool
deriving Repr, DecidableEq

/-- `newRegistryValues` from `registry.go`: the default record,
`Registered = false`, `Disabled = false`. -/
def newRegistryValues : registryValues :=
  { Registered := false, Disabled := false }

/-- An entry pairs a sensor id with its values (`registryEntry` in
`registry.go`). -/
structure registryEntry where
  id : String
  values : registryValues
deriving Repr, DecidableEq

/-- `newRegistryEntry` from `registry.go`: entry with default values. -/
def newRegistryEntry (id : String) : registryEntry :=
  { id := id, values := newRegistryValues }

/-- Rendering of a Go `bool` by `encoding/json`. -/
def jsonBool : Bool → String
  | true => "true"
  | false => "false"

/-- `json.Marshal` of a `registryValues` record: Go renders the struct
fields in declaration order with their JSON tags, producing
`\x7b"Registered":b1,"Disabled":b2\x7d`. -/
def marshalRegistryValues (v : registryValues) : String :=
  "\x7b\"Registered\":" ++ jsonBool v.Registered ++ ",\"Disabled\":" ++ jsonBool v.Disabled ++ "\x7d"

/-- Strips an expected prefix from a character stream, failing when the
stream does not start with it. -/
def stripPrefixChars : List Char → List Char → Option (List Char)
  | [], s => some s
  | _ :: _, [] => none
  | c :: p, d :: s => if c = d then stripPrefixChars p s else none

/-- Reads a JSON boolean (`true` or `false`) from a character stream. -/
def readBoolChars (cs : List Char) : Option (Bool × List Char) :=
  match stripPrefixChars "true".data cs with
  | some rest => some (true, rest)
  | none =>
    match stripPrefixChars "false".data cs with
    | some rest => some (false, rest)
    | none => none

/-- `json.Unmarshal` into a `registryValues` record, modelled on the
encodings produced by `marshalRegistryValues`: parses
`\x7b"Registered":b1,"Disabled":b2\x7d` and fails (`none`) on any other
input. -/
def unmarshalRegistryValues (s : String) : Option registryValues :=
  match stripPrefixChars "\x7b\"Registered\":".data s.data with
  | none => none
  | some cs1 =>
    match readBoolChars cs1 with
    | none => none
    | some (b1, cs2) =>
      match stripPrefixChars ",\"Disabled\":".data cs2 with
      | none => none
      | some cs3 =>
        match readBoolChars cs3 with
        | none => none
        | some (b2, cs4) =>
          if cs4 = "\x7d".data then some { Registered := b1, Disabled := b2 }
          else none

/-- Errors surfaced by the registry's store operations: badger's
`ErrKeyNotFound`, its closed-database error, and a JSON decoding failure. -/
inductive RegError where
  | keyNotFound
  | dbClosed
  | decodeError
deriving Repr, DecidableEq

/-- The state of the badger store backing the registry: a `closed` flag and
the stored key/value pairs (keys are sensor ids, values the raw serialized
bytes). -/
structure RegistryDB where
  closed : Bool
  store : List (String × String)
deriving Repr, DecidableEq

/-- Lookup of a key in the store. -/
def dbFind (store : List (String × String)) (id : String) : Option String :=
  match store.find? (fun kv => kv.1 = id) with
  | none => none
  | some kv => some kv.2

/-- Upsert of a key in the store (badger `txn.Set`). -/
def dbUpsert (store : List (String × String)) (id bytes : String) :
    List (String × String) :=
  (id, bytes) :: store.filter (fun kv => ¬ kv.1 = id)

/-- `sensorRegistry.Get` from `registry.go`: reads the raw value for `id`
inside a read transaction and JSON-decodes it; fails with `keyNotFound`
when the key is absent, `dbClosed` when the store is closed, and a decode
error when the stored bytes do not parse. -/
def registryGet (db : RegistryDB) (id : String) : Except RegError registryValues :=
  if db.closed then .error .dbClosed
  else
    match dbFind db.store id with
    | none => .error .keyNotFound
    | some bytes =>
      match unmarshalRegistryValues bytes with
      | none => .error .decodeError
      | some v => .ok v

/-- `sensorRegistry.Set` from `registry.go`: JSON-encodes the values and
upserts them under `id` inside an update transaction.  Returns the new
store state and the error (if any). -/
def registrySet (db : RegistryDB) (id : String) (values : registryValues) :
    RegistryDB × Option RegError :=
  if db.closed then (db, some .dbClosed)
  else ({ db with store := dbUpsert db.store id (marshalRegistryValues values) }, none)

/-- `sensorRegistry.Add` from `registry.go`: build a default entry; `Get`
the id; on `keyNotFound` persist the default entry (ignoring any `Set`
error); on any other error just log (no write); on success adopt the
stored values.  Returns the entry and the (possibly updated) store. -/
def registryAdd (db : RegistryDB) (id : String) : registryEntry × RegistryDB :=
  let entry := newRegistryEntry id
  match registryGet db entry.id with
  | .error .keyNotFound =>
    let res := registrySet db entry.id entry.values
    (entry, res.1)
  | .error _ => (entry, db)
  | .ok values => ({ entry with values := values }, db)

/-- JSON serialization of `registryValues` round-trips exactly. -/
theorem marshal_roundtrip (v : registryValues) :
    unmarshalRegistryValues (marshalRegistryValues v) = some v := by
  cases v with
  | mk r d => cases r <;> cases d <;> rfl

/-- A fresh upsert is found first. -/
theorem dbFind_dbUpsert (store : List (String × String)) (id bytes : String) :
    dbFind (dbUpsert store id bytes) id = some bytes := by
  simp [dbFind, dbUpsert]

/-- `registryGet` never reports `keyNotFound` on a closed store. -/
theorem registryGet_keyNotFound_open (db : RegistryDB) (id : String)
    (h : registryGet db id = .error .keyNotFound) : db.closed = false := by
  by_contra hc
  rw [Bool.not_eq_false] at hc
  simp [registryGet, hc] at h

/-- C1: for every id and registry value `v` (a pair of booleans
`Registered`, `Disabled`), on an open store `Registry.Set(id, v)` succeeds
and a subsequent `Registry.Get(id)` returns exactly `v`: the value
round-trips through JSON serialization and the store. -/
theorem registry_set_get_roundtrip (db : RegistryDB) (id : String)
    (v : registryValues) (hopen : db.closed = false) :
    (registrySet db id v).2 = none ∧
    registryGet (registrySet db id v).1 id = .ok v := by
  refine ⟨by simp [registrySet, hopen], ?_⟩
  simp [registrySet, registryGet, hopen, dbFind_dbUpsert, marshal_roundtrip]

/-- Witness for C1 at a concrete store, id and value. -/
theorem registry_set_get_roundtrip_witness :
    (registrySet ⟨false, []⟩ "battery_level" ⟨true, false⟩).2 = none ∧
    registryGet (registrySet ⟨false, []⟩ "battery_level" ⟨true, false⟩).1
      "battery_level" = .ok ⟨true, false⟩ :=
  registry_set_get_roundtrip ⟨false, []⟩ "battery_level" ⟨true, false⟩ rfl

/-- C2: `Add(id)` on a never-seen id (Get fails with key-not-found)
returns the default entry `{registered:false, disabled:false}` and
persists it (a subsequent Get finds the defaults); on an id that already
has an entry, `Add(id)` returns the stored values unmodified and performs
no write (the store state is unchanged). -/
theorem registry_add_spec (db : RegistryDB) (id : String) :
    (registryGet db id = .error .keyNotFound →
      (registryAdd db id).1 = newRegistryEntry id ∧
      registryGet (registryAdd db id).2 id = .ok newRegistryValues) ∧
    (∀ v, registryGet db id = .ok v →
      (registryAdd db id).1 = { id := id, values := v } ∧
      (registryAdd db id).2 = db) := by
  constructor
  · intro h
    have hopen : db.closed = false := registryGet_keyNotFound_open db id h
    have hid : (newRegistryEntry id).id = id := rfl
    refine ⟨?_, ?_⟩
    · simp [registryAdd, hid, h]
    · simp only [registryAdd, hid, h]
      simpa [newRegistryEntry] using
        (registry_set_get_roundtrip db id newRegistryValues hopen).2
  · intro v h
    have hid : (newRegistryEntry id).id = id := rfl
    constructor <;> simp [registryAdd, hid, h, newRegistryEntry]

/-- Witness for C2 at a concrete empty store (first branch) and at a store
already holding an entry (second branch). -/
theorem registry_add_spec_witness :
    ((registryAdd ⟨false, []⟩ "cpu_pct").1 = newRegistryEntry "cpu_pct" ∧
      registryGet (registryAdd ⟨false, []⟩ "cpu_pct").2 "cpu_pct" =
        .ok newRegistryValues) ∧
    ((registryAdd (registrySet ⟨false, []⟩ "cpu_pct" ⟨true, true⟩).1
        "cpu_pct").1 = { id := "cpu_pct", values := ⟨true, true⟩ } ∧
      (registryAdd (registrySet ⟨false, []⟩ "cpu_pct" ⟨true, true⟩).1
        "cpu_pct").2 = (registrySet ⟨false, []⟩ "cpu_pct" ⟨true, true⟩).1) :=
  ⟨(registry_add_spec ⟨false, []⟩ "cpu_pct").1 (by rfl),
    (registry_add_spec (registrySet ⟨false, []⟩ "cpu_pct" ⟨true, true⟩).1
      "cpu_pct").2 ⟨true, true⟩ (by rfl)⟩

/-- C3: when `Get` fails with any error other than key-not-found (closed
store, corrupt value), `Add(id)` still returns an entry with
`registered = false` and `disabled = false` and leaves the store
untouched: every sensor is treated as unregistered and enabled (fail
open). -/
theorem registry_add_fail_open (db : RegistryDB) (id : String) (e : RegError)
    (hget : registryGet db id = .error e) (hne : e ≠ .keyNotFound) :
    (registryAdd db id).1.values.Registered = false ∧
    (registryAdd db id).1.values.Disabled = false ∧
    (registryAdd db id).2 = db := by
  have hid : (newRegistryEntry id).id = id := rfl
  cases e with
  | keyNotFound => exact absurd rfl hne
  | dbClosed =>
    refine ⟨?_, ?_, ?_⟩ <;> simp [registryAdd, hid, hget, newRegistryEntry, newRegistryValues]
  | decodeError =>
    refine ⟨?_, ?_, ?_⟩ <;> simp [registryAdd, hid, hget, newRegistryEntry, newRegistryValues]

/-- Witness for C3 at a concrete closed store, where `Get` fails with the
closed-database error. -/
theorem registry_add_fail_open_witness :
    (registryAdd ⟨true, []⟩ "cpu_pct").1.values.Registered = false ∧
    (registryAdd ⟨true, []⟩ "cpu_pct").1.values.Disabled = false ∧
    (registryAdd ⟨true, []⟩ "cpu_pct").2 = ⟨true, []⟩ :=
  registry_add_fail_open ⟨true, []⟩ "cpu_pct" .dbClosed (by rfl)
    (by simp)

/-! ## MQTT controller assembly (`linuxMQTTController`, src/unnamed/part_000)

The controller holds lists of entities (sensors, binary sensors, buttons,
numbers, switches, cameras) plus free-standing control subscriptions.
Each entity produces its subscription/config via pure marshaling methods
that may fail; we model an entity by the results of those two methods.
Go's `[]*T` slices may hold nil pointers, so the produced lists are lists
of `Option`s where `none` is a nil pointer. -/

/-- An MQTT subscription (topic plus handler contract); only the topic is
relevant here. -/
structure Subscription where
  topic : String
deriving Repr, DecidableEq

/-- An outbound MQTT message (`mqttapi.Msg`). -/
structure Msg where
  topic : String
  message : String
deriving Repr, DecidableEq

/-- An entity as seen by the controller: the (pure) results of its
`MarshalSubscription` and `MarshalConfig` methods, either a value or an
error string. -/
structure Entity where
  marshalSubscription : Except String Subscription
  marshalConfig : Except String Msg
deriving Repr

/-- The `mqttWorker` state embedded in `linuxMQTTController`: entity
lists plus free-standing control subscriptions (nil-able pointers). -/
structure mqttWorker where
  sensors : List Entity
  buttons : List Entity
  numbers : List Entity
  switches : List Entity
  controls : List (Option Subscription)
  binarySensors : List Entity
  cameras : List Entity
deriving Repr

/-- `linuxMQTTController.generateSubscription`: marshals an entity's
subscription; on error it logs a warning and returns nil (`none`). -/
def generateSubscription (e : Entity) : Option Subscription :=
  match e.marshalSubscription with
  | .ok sub => some sub
  | .error _ => none

/-- `linuxMQTTController.generateConfig`: marshals an entity's config; on
error it logs a warning and returns nil (`none`). -/
def generateConfig (e : Entity) : Option Msg :=
  match e.marshalConfig with
  | .ok cfg => some cfg
  | .error _ => none

/-- `linuxMQTTController.Subscriptions`: appends `generateSubscription` of
every button, number and switch, then the free-standing controls. -/
def Subscriptions (c : mqttWorker) : List (Option Subscription) :=
  c.buttons.map generateSubscription ++
    c.numbers.map generateSubscription ++
    c.switches.map generateSubscription ++
    c.controls

/-- `linuxMQTTController.Configs`: appends `generateConfig` of every
sensor, binary sensor, button, number, switch and camera. -/
def Configs (c : mqttWorker) : List (Option Msg) :=
  c.sensors.map generateConfig ++
    c.binarySensors.map generateConfig ++
    c.buttons.map generateConfig ++
    c.numbers.map generateConfig ++
    c.switches.map generateConfig ++
    c.cameras.map generateConfig

/-- The spec's description of `Subscriptions`: the concatenation of the
per-entity marshaling results with every erroring entity omitted, so only
successfully marshaled subscriptions remain. -/
def SubscriptionsPerSpec (c : mqttWorker) : List (Option Subscription) :=
  ((c.buttons ++ c.numbers ++ c.switches).filterMap
      (fun e => e.marshalSubscription.toOption)).map some ++ c.controls

/-- The spec's description of `Configs`: per-entity marshaling results
with every erroring entity omitted. -/
def ConfigsPerSpec (c : mqttWorker) : List (Option Msg) :=
  ((c.sensors ++ c.binarySensors ++ c.buttons ++ c.numbers ++ c.switches ++
      c.cameras).filterMap (fun e => e.marshalConfig.toOption)).map some

/-- A concrete controller with a single button whose marshaling fails. -/
def failingButtonWorker : mqttWorker :=
  { sensors := [], buttons := [⟨.error "bad", .error "bad"⟩], numbers := [],
    switches := [], controls := [], binarySensors := [], cameras := [] }

/-- `generateSubscription` is exactly `Except.toOption` of the marshaling
result. -/
theorem generateSubscription_eq :
    generateSubscription = fun e => e.marshalSubscription.toOption :=
  funext fun e => by
    unfold generateSubscription
    cases e.marshalSubscription <;> rfl

/-- `generateConfig` is exactly `Except.toOption` of the marshaling
result. -/
theorem generateConfig_eq :
    generateConfig = fun e => e.marshalConfig.toOption :=
  funext fun e => by
    unfold generateConfig
    cases e.marshalConfig <;> rfl

/-- C4 counterexample: on a controller whose single button fails to
marshal, `Subscriptions()` returns a one-element list holding a nil
pointer, not the empty list the claim (failing entities omitted)
predicts. -/
theorem mqtt_marshal_skip_counterexample :
    Subscriptions failingButtonWorker = [none] ∧
    SubscriptionsPerSpec failingButtonWorker = [] ∧
    Configs failingButtonWorker = [none] ∧
    ConfigsPerSpec failingButtonWorker = [] ∧
    Subscriptions failingButtonWorker ≠ SubscriptionsPerSpec failingButtonWorker := by
  refine ⟨rfl, rfl, rfl, rfl, ?_⟩
  decide

/-- C4 amended: `Subscriptions()`/`Configs()` produce one slot per entity
(plus the free-standing controls); an entity whose marshaling errors is
not omitted but contributes a nil placeholder, and stripping the nils
yields exactly the successful marshaling results in order — so one
failing entity never affects the others' presence, but the failing entity
itself still appears as nil. -/
theorem mqtt_marshal_nil_placeholder (c : mqttWorker) :
    (Subscriptions c).length =
      c.buttons.length + c.numbers.length + c.switches.length +
        c.controls.length ∧
    (Subscriptions c).filterMap id =
      (c.buttons ++ c.numbers ++ c.switches).filterMap
          (fun e => e.marshalSubscription.toOption) ++
        c.controls.filterMap id ∧
    (Configs c).length =
      c.sensors.length + c.binarySensors.length + c.buttons.length +
        c.numbers.length + c.switches.length + c.cameras.length ∧
    (Configs c).filterMap id =
      (c.sensors ++ c.binarySensors ++ c.buttons ++ c.numbers ++
          c.switches ++ c.cameras).filterMap
        (fun e => e.marshalConfig.toOption) := by
  refine ⟨?_, ?_, ?_, ?_⟩
  · simp [Subscriptions]
    ring
  · simp [Subscriptions, List.filterMap_append, List.filterMap_map,
      Function.comp, generateSubscription_eq]
  · simp [Configs]
    ring
  · simp [Configs, List.filterMap_append, List.filterMap_map,
      Function.comp, generateConfig_eq]

/-! ## Closing the MQTT message channel (src/unnamed/part_000, lines 260-263)

`newOSController` spawns one goroutine
`go func() \x7b defer close(mqttController.msgs); <-ctx.Done() \x7d()`.
We model the joint state of the owning context and that goroutine as a
labelled transition system: the cancellation event may fire once, and the
goroutine — blocked on `<-ctx.Done()` — unblocks only after cancellation,
closing the channel as it exits.  `msgsClosed = true` encodes that the
goroutine has executed its deferred `close` and exited. -/

/-- State of the context plus the channel-closing goroutine of
`newOSController`. -/
structure MsgsCloseState where
  cancelled : Bool
  msgsClosed : Bool
deriving Repr, DecidableEq

/-- Labels of the transitions: the context being cancelled, and the
goroutine unblocking from `<-ctx.Done()` and running its deferred
`close(msgs)`. -/
inductive MsgsLabel where
  | cancel
  | closeMsgs
deriving Repr, DecidableEq

/-- Transitions of the close goroutine system.  `cancel` fires at most
once (context cancellation is one-shot); `closeMsgs` requires the context
to be cancelled (the goroutine is blocked on `<-ctx.Done()` until then)
and the goroutine not to have exited yet (it runs its body once, closing
on exit via `defer`). -/
inductive MsgsStep : MsgsCloseState → MsgsLabel → MsgsCloseState → Prop
  | cancel (s : MsgsCloseState) : s.cancelled = false →
      MsgsStep s .cancel { s with cancelled := true }
  | closeMsgs (s : MsgsCloseState) : s.cancelled = true →
      s.msgsClosed = false →
      MsgsStep s .closeMsgs { s with msgsClosed := true }

/-- The initial state: context live, channel open. -/
def msgsInit : MsgsCloseState := { cancelled := false, msgsClosed := false }

/-- A state is reachable when some sequence of transitions leads to it
from the initial state. -/
def MsgsReachable (s : MsgsCloseState) : Prop :=
  Relation.ReflTransGen (fun a b => ∃ l, MsgsStep a l b) msgsInit s

/-- C5: the outbound MQTT message channel is closed exactly once, and
precisely when the owning context is cancelled: (1) in every reachable
state a closed channel implies the context was cancelled (never closed
before cancellation); (2) a step can only close the channel from a state
where the context is cancelled and the channel is still open, so no
trace closes it twice; (3) once closed it stays closed; and (4) from any
reachable cancelled state with the channel still open, the closing step
is enabled. -/
theorem msgs_channel_closed_once :
    (∀ s, MsgsReachable s → s.msgsClosed = true → s.cancelled = true) ∧
    (∀ s l s', MsgsStep s l s' → l = MsgsLabel.closeMsgs →
      s.cancelled = true ∧ s.msgsClosed = false ∧ s'.msgsClosed = true) ∧
    (∀ s l s', MsgsStep s l s' → s.msgsClosed = true → s'.msgsClosed = true) ∧
    (∀ s, MsgsReachable s → s.cancelled = true → s.msgsClosed = false →
      MsgsStep s .closeMsgs { s with msgsClosed := true }) := by
  refine ⟨?_, ?_, ?_, ?_⟩
  · intro s hreach
    induction hreach with
    | refl => intro h; exact absurd h (by simp [msgsInit])
    | tail _ hstep ih =>
      obtain ⟨l, hstep⟩ := hstep
      cases hstep with
      | cancel ht => intro _; rfl
      | closeMsgs ht hm => intro _; exact ht
  · intro s l s' hstep hl
    cases hstep with
    | cancel ht => exact absurd hl (by simp)
    | closeMsgs ht hm => exact ⟨ht, hm, rfl⟩
  · intro s l s' hstep hclosed
    cases hstep with
    | cancel ht => exact hclosed
    | closeMsgs ht hm => rfl
  · intro s _ hc hm
    exact MsgsStep.closeMsgs s hc hm

/-- Witness for C5: the fully-stopped state (cancelled, closed) is
reachable, and the theorem applied there yields that cancellation
happened before the close. -/
theorem msgs_channel_closed_once_witness :
    (⟨true, true⟩ : MsgsCloseState).cancelled = true :=
  msgs_channel_closed_once.1 ⟨true, true⟩
    (Relation.ReflTransGen.tail
      (Relation.ReflTransGen.single ⟨.cancel, MsgsStep.cancel msgsInit rfl⟩)
      ⟨.closeMsgs, MsgsStep.closeMsgs ⟨true, false⟩ rfl rfl⟩)
    rfl

/-! ## Registry lifecycle (`OpenSensorRegistry`, registry.go lines 44-60)

`OpenSensorRegistry` spawns two goroutines:

* a garbage-collection goroutine: `for range ticker.C` waits for a
  5-minute tick, then runs `db.RunValueLogGC(0.7)` repeatedly
  (`goto again`) until it returns an error, then goes back to waiting for
  the next tick.  The loop body contains no `ctx.Done()` check and the
  ticker channel is never closed, so the `for range` never terminates;

* a closing goroutine: `<-ctx.Done(); db.Close()`.

We model the joint state as a labelled transition system.  `gcPc` is the
program counter of the GC goroutine (waiting for a tick, or inside the
GC/goto-again loop); the ticker fires whenever the goroutine is waiting;
`RunValueLogGC` can succeed only while the database is open and can fail
at any time (it always fails once the database is closed). -/

/-- Program counter of the value-log GC goroutine. -/
inductive GcPc where
  | waitTick
  | running
deriving Repr, DecidableEq

/-- Joint state of the context, the badger store and the two goroutines
spawned by `OpenSensorRegistry`. -/
structure RegLifeState where
  cancelled : Bool
  dbClosed : Bool
  closerDone : Bool
  gcPc : GcPc
deriving Repr, DecidableEq

/-- Transition labels for the registry lifecycle. -/
inductive RegLabel where
  | cancel
  | closeStore
  | tick
  | gcSucceed
  | gcFail
deriving Repr, DecidableEq

/-- Transitions of the registry lifecycle.  `tick` is enabled whenever
the GC goroutine is back at `for range ticker.C` — independent of
cancellation, because the loop never watches `ctx.Done()` and the ticker
channel is never closed. -/
inductive RegStep : RegLifeState → RegLabel → RegLifeState → Prop
  | cancel (s : RegLifeState) : s.cancelled = false →
      RegStep s .cancel { s with cancelled := true }
  | closeStore (s : RegLifeState) : s.cancelled = true →
      s.closerDone = false →
      RegStep s .closeStore { s with dbClosed := true, closerDone := true }
  | tick (s : RegLifeState) : s.gcPc = .waitTick →
      RegStep s .tick { s with gcPc := .running }
  | gcSucceed (s : RegLifeState) : s.gcPc = .running →
      s.dbClosed = false →
      RegStep s .gcSucceed { s with gcPc := .running }
  | gcFail (s : RegLifeState) : s.gcPc = .running →
      RegStep s .gcFail { s with gcPc := .waitTick }

/-- Initial state right after `OpenSensorRegistry` returns. -/
def regInit : RegLifeState :=
  { cancelled := false, dbClosed := false, closerDone := false, gcPc := .waitTick }

/-- Reachability from `regInit`. -/
def RegReachable (s : RegLifeState) : Prop :=
  Relation.ReflTransGen (fun a b => ∃ l, RegStep a l b) regInit s

/-- The state after cancellation has fired and the closing goroutine has
closed the store, with the GC goroutine back at its ticker wait. -/
def gcLeakState : RegLifeState :=
  { cancelled := true, dbClosed := true, closerDone := true, gcPc := .waitTick }

/-- C6 (refuted): once cancellation fires, the store does close — but the
value-log GC goroutine never stops.  `gcLeakState` (cancelled, store
closed) is reachable, and from it the GC goroutine still takes a tick
step; indeed from every state the GC goroutine has an enabled step
(`tick` when waiting, `gcFail` when running), so there is no state in
which the background maintenance task has terminated. -/
theorem registry_gc_never_stops :
    RegReachable gcLeakState ∧
    RegStep gcLeakState .tick { gcLeakState with gcPc := .running } ∧
    (∀ s : RegLifeState,
      (∃ s', RegStep s .tick s') ∨ (∃ s', RegStep s .gcFail s')) := by
  refine ⟨?_, RegStep.tick gcLeakState rfl, ?_⟩
  · exact Relation.ReflTransGen.tail
      (Relation.ReflTransGen.single ⟨.cancel, RegStep.cancel regInit rfl⟩)
      ⟨.closeStore, RegStep.closeStore ⟨true, false, false, .waitTick⟩ rfl rfl⟩
  · intro s
    cases h : s.gcPc with
    | waitTick => exact Or.inl ⟨_, RegStep.tick s h⟩
    | running => exact Or.inr ⟨_, RegStep.gcFail s h⟩

/-! ## SensorController supervision (interface in src/unnamed/part_001,
errors in src/unnamed/part_000) -/

/-- The start errors declared in the source:
`ErrWorkerAlreadyStarted = errors.New("worker already started")` and
`ErrUnknownWorker = errors.New("unknown worker")`. -/
inductive StartError where
  | ErrUnknownWorker
  | ErrWorkerAlreadyStarted
deriving Repr, DecidableEq

/-- The controller's per-worker record (`sensorWorker` in the source): a
worker object (identified here by its name) plus a started flag. -/
structure DeviceController where
  sensorWorkers : List (String × Bool)
deriving Repr, DecidableEq

/-- Lookup of a worker's running flag in the association list modelling
the `sensorWorkers` map. -/
def lookupWorker : List (String × Bool) → String → Option Bool
  | [], _ => none
  | kv :: rest, name =>
    if kv.1 = name then some kv.2 else lookupWorker rest name

/-- Sets the named worker's running flag to `true`, leaving the rest of
the map unchanged. -/
def markStartedList : List (String × Bool) → String → List (String × Bool)
  | [], _ => []
  | kv :: rest, name =>
    (if kv.1 = name then (kv.1, true) else kv) :: markStartedList rest name

/-- The running flag recorded for `name`, or `none` when `name` is not
among the managed set. -/
def workerState (c : DeviceController) (name : String) : Option Bool :=
  lookupWorker c.sensorWorkers name

/-- Marks the named worker as started. -/
def markStarted (c : DeviceController) (name : String) : DeviceController :=
  { sensorWorkers := markStartedList c.sensorWorkers name }

/-- Marking a present worker as started makes its flag `true`. -/
theorem lookupWorker_markStartedList (l : List (String × Bool))
    (name : String) (b : Bool) (h : lookupWorker l name = some b) :
    lookupWorker (markStartedList l name) name = some true := by
  induction l with
  | nil => simp [lookupWorker] at h
  | cons kv rest ih =>
    by_cases hk : kv.1 = name
    · simp [lookupWorker, markStartedList, hk]
    · simp only [lookupWorker, markStartedList, hk, if_false, if_neg hk] at h ⊢
      exact ih h

/-- Modelled from the spec: the `deviceController.Start` implementation is
not present under src/ (only the `SensorController` interface, the error
values `ErrUnknownWorker`/`ErrWorkerAlreadyStarted` and the worker map
setup are); modelled from spec section 4.2: fail with `ErrUnknownWorker`
when `name` is not among the managed set, `ErrWorkerAlreadyStarted` when
the named worker is already running, and otherwise record the worker as
running. -/
def controllerStart (c : DeviceController) (name : String) :
    Except StartError DeviceController :=
  match workerState c name with
  | none => .error .ErrUnknownWorker
  | some true => .error .ErrWorkerAlreadyStarted
  | some false => .ok (markStarted c name)

/-- C7: `Start(ctx, name)` returns `ErrUnknownWorker` when `name` is not
among the managed set, `ErrWorkerAlreadyStarted` when the named worker is
already running — in both cases the error is the function's return value,
not swallowed — and on success the worker is recorded as running. -/
theorem controller_start_spec (c : DeviceController) (name : String) :
    (workerState c name = none →
      controllerStart c name = .error .ErrUnknownWorker) ∧
    (workerState c name = some true →
      controllerStart c name = .error .ErrWorkerAlreadyStarted) ∧
    (workerState c name = some false →
      ∃ c', controllerStart c name = .ok c' ∧
        workerState c' name = some true) := by
  refine ⟨?_, ?_, ?_⟩
  · intro h; simp [controllerStart, h]
  · intro h; simp [controllerStart, h]
  · intro h
    refine ⟨markStarted c name, by simp [controllerStart, h], ?_⟩
    exact lookupWorker_markStartedList c.sensorWorkers name false h

/-- Witness for C7 on a concrete controller managing workers `cpu`
(stopped) and `battery` (running): an unknown name errors, starting the
running worker errors, and starting the stopped worker records it as
running. -/
theorem controller_start_spec_witness :
    (controllerStart ⟨[("cpu", false), ("battery", true)]⟩ "disk" =
      .error .ErrUnknownWorker) ∧
    (controllerStart ⟨[("cpu", false), ("battery", true)]⟩ "battery" =
      .error .ErrWorkerAlreadyStarted) ∧
    (∃ c', controllerStart ⟨[("cpu", false), ("battery", true)]⟩ "cpu" =
      .ok c' ∧ workerState c' "cpu" = some true) :=
  ⟨(controller_start_spec ⟨[("cpu", false), ("battery", true)]⟩ "disk").1
      (by decide),
    (controller_start_spec ⟨[("cpu", false), ("battery", true)]⟩ "battery").2.1
      (by decide),
    (controller_start_spec ⟨[("cpu", false), ("battery", true)]⟩ "cpu").2.2
      (by decide)⟩

/-! ## Tracker fan-in (`Agent.runWorkers`, src/unnamed/part_001 lines
491-528, and spec section 4.3)

`runWorkers` collects one update channel per controller and hands them to
`trk.Process(ctx, reg, sensorCh...)`.  The Tracker implementation itself
is not under src/; following the spec, `Process` spawns one reader per
input stream forwarding into a single merge point, so the delivered
sequence is an arbitrary interleaving of the input sequences.  We model a
completed fan-in run as a relation: at each step the scheduler picks any
stream that still has elements and delivers its head; the run ends when
every stream is exhausted. -/

/-- Modelled from the spec: the Tracker's `Process` fan-in (spec section
4.3, steps 1-3) is not under src/ — only its caller `Agent.runWorkers`
is.  `Merge ls out` holds when `out` is a possible merged delivery order
of the per-worker streams `ls`: each step delivers the head of some
still-nonempty stream, and the run completes when all streams are
exhausted. -/
inductive Merge {α : Type} : List (List α) → List α → Prop
  | done (ls : List (List α)) : (∀ l ∈ ls, l = []) → Merge ls []
  | step (ls : List (List α)) (i : Fin ls.length) (x : α) (rest : List α)
      (out : List α) : ls.get i = x :: rest →
      Merge (ls.set i rest) out → Merge ls (x :: out)

/-- Moving the head of the `i`-th stream to the front is a permutation of
the flattened streams. -/
theorem flatten_set_cons_perm {α : Type} (ls : List (List α)) (i : Fin ls.length)
    (x : α) (rest : List α) (h : ls.get i = x :: rest) :
    ls.flatten.Perm (x :: (ls.set i rest).flatten) := by
  induction ls with
  | nil => exact absurd i.isLt (by simp)
  | cons hd tl ih =>
    cases i using Fin.cases with
    | zero =>
      simp only [List.get] at h
      subst h
      simp [List.flatten]
    | succ j =>
      simp only [List.get] at h
      have hperm := ih j h
      have hset : (hd :: tl).set (↑(j.succ)) rest = hd :: tl.set (↑j) rest := by
        simp [Fin.val_succ]
      rw [hset]
      simp only [List.flatten_cons]
      exact (hperm.append_left hd).trans List.perm_middle

/-- Any merged output is a permutation of the concatenation of the input
streams: nothing lost, nothing duplicated. -/
theorem merge_perm_flatten {α : Type} {ls : List (List α)} {out : List α}
    (h : Merge ls out) : out.Perm ls.flatten := by
  induction h with
  | done ls hall =>
    have : ls.flatten = [] := by
      rw [List.flatten_eq_nil_iff]
      exact hall
    rw [this]
  | step ls i x rest out hget _ ih =>
    exact (ih.cons x).trans (flatten_set_cons_perm ls i x rest hget).symm

/-- Each input stream is delivered in emission order: it is a subsequence
of the merged output. -/
theorem merge_sublist {α : Type} {ls : List (List α)} {out : List α}
    (h : Merge ls out) : ∀ i : Fin ls.length, List.Sublist (ls.get i) out := by
  induction h with
  | done ls hall =>
    intro i
    have : ls.get i = [] := hall _ (List.get_mem ls i.1 i.isLt)
    rw [this]
  | step ls j x rest out hget _ ih =>
    intro i
    by_cases hij : i.1 = j.1
    · have hi : ls.get i = x :: rest := by
        have : i = j := Fin.ext hij
        rw [this, hget]
      rw [hi]
      have hrest : List.Sublist rest out := by
        have hj' : j.1 < (ls.set j.1 rest).length := by
          simp [List.length_set]
        have := ih ⟨j.1, hj'⟩
        have hval : (ls.set j.1 rest).get ⟨j.1, hj'⟩ = rest := by
          simp
        rwa [hval] at this
      exact hrest.cons₂ x
    · have hi' : i.1 < (ls.set j.1 rest).length := by
        simp [List.length_set]
      have := ih ⟨i.1, hi'⟩
      have hval : (ls.set j.1 rest).get ⟨i.1, hi'⟩ = ls.get i := by
        simpa using List.getElem_set_ne (fun hji => hij hji.symm) hi'
      rw [hval] at this
      exact this.cons x

/-- C8: for every finite family of per-worker snapshot sequences, any
merged output delivered by the fan-in is the multiset union of the
per-worker sequences (a permutation of their concatenation — no loss, no
duplication) and preserves each worker's relative emission order (each
input is a subsequence of the output); and no cross-worker order is
guaranteed: the two-worker family `[[1], [2]]` admits both interleavings.
-/
theorem tracker_merge_spec :
    (∀ (ls : List (List ℕ)) (out : List ℕ), Merge ls out →
      out.Perm ls.flatten ∧ ∀ i : Fin ls.length, List.Sublist (ls.get i) out) ∧
    Merge [[1], [2]] [1, 2] ∧ Merge [[1], [2]] [2, 1] := by
  refine ⟨fun ls out h => ⟨merge_perm_flatten h, merge_sublist h⟩, ?_, ?_⟩
  · exact Merge.step _ ⟨0, by decide⟩ 1 [] _ rfl
      (Merge.step _ ⟨1, by decide⟩ 2 [] _ rfl (Merge.done _ (by decide)))
  · exact Merge.step _ ⟨1, by decide⟩ 2 [] _ rfl
      (Merge.step _ ⟨0, by decide⟩ 1 [] _ rfl (Merge.done _ (by decide)))

/-- Witness for C8 on the concrete two-worker family `[[1], [2]]` and the
output `[1, 2]`: the output is a permutation of the flattened inputs and
stream `0` is a subsequence of the output. -/
theorem tracker_merge_spec_witness :
    List.Perm [1, 2] (List.flatten [[1], [2]]) ∧
    List.Sublist (List.get [[1], [2]] ⟨0, by decide⟩) ([1, 2] : List ℕ) :=
  ⟨(tracker_merge_spec.1 [[1], [2]] [1, 2] tracker_merge_spec.2.1).1,
    (tracker_merge_spec.1 [[1], [2]] [1, 2] tracker_merge_spec.2.1).2
      ⟨0, by decide⟩⟩

/-! ## Sensor identifiers (`linuxSensor`, in
src/internal/agent/config/config.go lines 340-410 of the bundle)

`linuxSensor.Name()` returns `l.sensorType.String()` and
`linuxSensor.ID()` returns `strcase.ToSnake(l.sensorType.String())`.
`strcase.ToSnake` is an external library; we model its snake-case
transformation (lowercase everything, separate words with underscores). -/

/-- Snake-case conversion modelling `strcase.ToSnake`: uppercase letters
are lowercased, with an underscore inserted before each uppercase letter
that is not at the start, and spaces become underscores. -/
def toSnakeChars : List Char → Bool → List Char
  | [], _ => []
  | c :: cs, isFirst =>
    if c.isUpper then
      (if isFirst then [c.toLower] else ['_', c.toLower]) ++ toSnakeChars cs false
    else if c = ' ' then '_' :: toSnakeChars cs false
    else c :: toSnakeChars cs false

/-- `strcase.ToSnake` on strings. -/
def ToSnake (s : String) : String :=
  ⟨toSnakeChars s.data true⟩

/-- The Linux sensor struct (`linuxSensor` in the source); the sensor
type is represented by its `String()` rendering, and the remaining
metadata fields do not enter `Name`/`ID`. -/
structure linuxSensor where
  value : String
  icon : String
  units : String
  source : String
  sensorTypeString : String
  isBinary : Bool
  isDiagnostic : Bool
deriving Repr, DecidableEq

/-- `linuxSensor.Name()`: the sensor type's name string. -/
def linuxSensorName (l : linuxSensor) : String :=
  l.sensorTypeString

/-- `linuxSensor.ID()`: the snake-case transformation of the sensor
type's name string. -/
def linuxSensorID (l : linuxSensor) : String :=
  ToSnake l.sensorTypeString

/-- C9: a sensor's identifier is a deterministic pure function of its
human-readable name — the snake-case transformation of the name — so any
two sensors with the same name (in the same or different process runs)
have the same identifier. -/
theorem sensor_id_deterministic (l₁ l₂ : linuxSensor)
    (h : linuxSensorName l₁ = linuxSensorName l₂) :
    linuxSensorID l₁ = linuxSensorID l₂ ∧
    linuxSensorID l₁ = ToSnake (linuxSensorName l₁) := by
  unfold linuxSensorID linuxSensorName at *
  rw [h]
  exact ⟨rfl, rfl⟩

/-- Witness for C9: two sensors sharing the name `ScreenLock` but
differing in every other field have the same identifier. -/
theorem sensor_id_deterministic_witness :
    linuxSensorID ⟨"true", "mdi:eye-lock", "", "D-Bus", "ScreenLock", true, false⟩ =
      linuxSensorID ⟨"false", "mdi:eye-lock-open", "", "ProcFS", "ScreenLock", false, true⟩ ∧
    linuxSensorID ⟨"true", "mdi:eye-lock", "", "D-Bus", "ScreenLock", true, false⟩ =
      ToSnake (linuxSensorName ⟨"true", "mdi:eye-lock", "", "D-Bus", "ScreenLock", true, false⟩) :=
  sensor_id_deterministic
    ⟨"true", "mdi:eye-lock", "", "D-Bus", "ScreenLock", true, false⟩
    ⟨"false", "mdi:eye-lock-open", "", "ProcFS", "ScreenLock", false, true⟩
    rfl

/-! ## The two `generateWebsocketURL` implementations (C10)

Both implementations begin with `url.Parse(host)` and then rewrite the
scheme and join `/api/websocket`; we therefore model them over the
common parse result: `none` for a parse failure, `some u` for a URL with
a scheme and an opaque remainder. -/

/-- The result of `url.Parse`: a scheme plus the rest of the URL, which
both implementations carry through unchanged. -/
structure ParsedURL where
  scheme : String
  rest : String
deriving Repr, DecidableEq

/-- `u.JoinPath("/api/websocket")` followed by `u.String()`. -/
def urlStringWithWebsocketPath (u : ParsedURL) : String :=
  u.scheme ++ "://" ++ u.rest ++ "/api/websocket"

/-- `generateWebsocketURL` from the agent registration code
(src/unnamed/part_002, lines 113-132): on parse failure return an error;
map scheme `https` to `wss`, `http` to `ws`, keep `wss`, and default any
other scheme to `ws`; then join `/api/websocket`. -/
def generateWebsocketURLReg : Option ParsedURL → Except String String
  | none => .error "unable to generate websocket URL"
  | some u =>
    let u' :=
      if u.scheme = "https" then { u with scheme := "wss" }
      else if u.scheme = "http" then { u with scheme := "ws" }
      else if u.scheme = "wss" then u
      else { u with scheme := "ws" }
    .ok (urlStringWithWebsocketPath u')

/-- `generateWebsocketURL` from the config package
(src/internal/agent/config/config.go lines 201-219): on parse failure
return `""`; map `https` to `wss` and `http` to `ws`; for any other
scheme log `Unknown URL scheme.` and return `""`; then join
`/api/websocket`. -/
def generateWebsocketURLCfg : Option ParsedURL → String
  | none => ""
  | some u =>
    if u.scheme = "https" then urlStringWithWebsocketPath { u with scheme := "wss" }
    else if u.scheme = "http" then urlStringWithWebsocketPath { u with scheme := "ws" }
    else ""

/-- Agreement of the two implementations on one parse result: the
registration one fails exactly when the config one returns the empty
string, and on success they produce the same URL string. -/
def websocketURLAgree (o : Option ParsedURL) : Prop :=
  match generateWebsocketURLReg o with
  | .ok v => v = generateWebsocketURLCfg o
  | .error _ => generateWebsocketURLCfg o = ""

/-- C10 counterexample: for the host `wss://example.com:8123` (scheme
neither `http` nor `https`), the registration implementation returns a
URL while the config-package one returns `""` — the two implementations
are not equivalent. -/
theorem websocket_url_equiv_counterexample :
    generateWebsocketURLReg (some ⟨"wss", "example.com:8123"⟩) =
      .ok "wss://example.com:8123/api/websocket" ∧
    generateWebsocketURLCfg (some ⟨"wss", "example.com:8123"⟩) = "" ∧
    ¬ websocketURLAgree (some ⟨"wss", "example.com:8123"⟩) := by
  refine ⟨rfl, rfl, ?_⟩
  intro hcontra
  have h' : ("wss://example.com:8123/api/websocket" : String) = "" := hcontra
  exact absurd h' (by decide)

/-- C10 amended: the two implementations agree on hosts whose scheme is
`https` or `http` (same `https→wss`/`http→ws` mapping, same
`/api/websocket` path) and on hosts that fail to parse (both signal
failure); but for every other scheme they differ: the config-package one
returns `""` while the registration one still returns a `ws://` URL
(`wss://` when the scheme is `wss`). -/
theorem websocket_url_equiv_amended :
    (∀ u : ParsedURL, u.scheme = "https" ∨ u.scheme = "http" →
      generateWebsocketURLReg (some u) =
        .ok (generateWebsocketURLCfg (some u))) ∧
    websocketURLAgree none ∧
    (∀ u : ParsedURL, u.scheme ≠ "https" → u.scheme ≠ "http" →
      generateWebsocketURLCfg (some u) = "" ∧
      ∃ v, generateWebsocketURLReg (some u) = .ok v) := by
  refine ⟨?_, ?_, ?_⟩
  · intro u h
    obtain ⟨s, r⟩ := u
    rcases h with h | h <;>
      simp only at h <;> subst h <;> rfl
  · show generateWebsocketURLCfg none = ""
    rfl
  · intro u h1 h2
    obtain ⟨s, r⟩ := u
    simp only at h1 h2
    refine ⟨?_, ⟨_, rfl⟩⟩
    simp only [generateWebsocketURLCfg]
    rw [if_neg h1, if_neg h2]

/-- Witness for C10 (amended) at concrete inputs: agreement on an
`https` host and divergence on an `ftp` host. -/
theorem websocket_url_equiv_amended_witness :
    (generateWebsocketURLReg (some ⟨"https", "example.com"⟩) =
      .ok (generateWebsocketURLCfg (some ⟨"https", "example.com"⟩))) ∧
    (generateWebsocketURLCfg (some ⟨"ftp", "example.com"⟩) = "" ∧
      ∃ v, generateWebsocketURLReg (some ⟨"ftp", "example.com"⟩) = .ok v) :=
  ⟨websocket_url_equiv_amended.1 ⟨"https", "example.com"⟩ (Or.inl rfl),
    websocket_url_equiv_amended.2.2 ⟨"ftp", "example.com"⟩
      (by decide) (by decide)⟩

end GoHassAgent
